import Mathlib

/-!
Shallow embedding of `backend/scraper.py` (opentix-watch).

Text is modelled as `List Char` (Python `str` is a sequence of Unicode code
points, as is a Lean `List Char`).  Pure helpers (`_normalize_digits`,
`_extract_remaining_count`, `_is_valid_opentix_url`, comma splitting,
stripping) are translated directly.  Effectful code (retry loop, batch
orchestration, row parsing, readiness waiting, teardown) is embedded by
making the environment's choices explicit parameters and recording the
observable actions (attempts, sleeps, closes, waits) as event traces.
-/

namespace Opentix

/-- The set of characters Python treats as whitespace, both for `str.strip()`
and for the regex class `\s` in unicode mode (CPython's `Py_UNICODE_ISSPACE`
list). -/
def isPySpace (c : Char) : Bool :=
  [0x9, 0xA, 0xB, 0xC, 0xD, 0x1C, 0x1D, 0x1E, 0x1F, 0x20, 0x85, 0xA0, 0x1680,
   0x2000, 0x2001, 0x2002, 0x2003, 0x2004, 0x2005, 0x2006, 0x2007, 0x2008,
   0x2009, 0x200A, 0x2028, 0x2029, 0x202F, 0x205F, 0x3000].contains c.toNat

/-- Python `str.strip()` with no argument: drop leading and trailing
whitespace. -/
def strip (s : List Char) : List Char :=
  ((s.dropWhile isPySpace).reverse.dropWhile isPySpace).reverse

/-- Python truthiness of a string: non-empty. -/
def truthy (s : List Char) : Bool := !s.isEmpty

/-- Python `s.split(",")`: split at every comma, keeping empty pieces;
`"".split(",") == [""]`. -/
def split_commas : List Char → List (List Char)
  | [] => [[]]
  | c :: rest =>
    if c = ',' then [] :: split_commas rest
    else
      match split_commas rest with
      | g :: gs => (c :: g) :: gs
      | [] => [[c]]

/-- Python `s.startswith(p)` (first argument is the candidate p). -/
def startswith : List Char → List Char → Bool
  | [], _ => true
  | _ :: _, [] => false
  | p :: ps, c :: cs => p == c && startswith ps cs

/-- Python `p in s` substring containment. -/
def containsSub (pat : List Char) : List Char → Bool
  | [] => pat.isEmpty
  | c :: rest => startswith pat (c :: rest) || containsSub pat rest

/-! ### `TicketScraper._normalize_digits` -/

/-- The translation table built by
`str.maketrans("０１２３４５６７８９，", "0123456789,")` in
`_normalize_digits` (scraper.py:383). -/
def digitTable : List (Char × Char) :=
  [('０', '0'), ('１', '1'), ('２', '2'), ('３', '3'), ('４', '4'),
   ('５', '5'), ('６', '6'), ('７', '7'), ('８', '8'), ('９', '9'),
   ('，', ',')]

/-- `str.translate(table)` acts on one character: mapped if present in the
table, unchanged otherwise. -/
def normalizeChar (c : Char) : Char :=
  match digitTable.lookup c with
  | some d => d
  | none => c

/-- `TicketScraper._normalize_digits` (scraper.py:380-384). -/
def normalize_digits (t : List Char) : List Char := t.map normalizeChar

/-! ### `TicketScraper._extract_remaining_count`

The five regexes of scraper.py:367-373 are embedded as anchored matchers
tried at every position left to right, which reproduces `re.search`'s
leftmost-match semantics.  Greedy matching of `\s*` and `[0-9,]+` is safe to
hard-code here because the character classes involved in each pattern are
pairwise disjoint, so no backtracking can revive a failed match. -/

/-- The regex class `[0-9,]` (ASCII digits and comma). -/
def isDigitComma (c : Char) : Bool := c.isDigit || c == ','

/-- An anchored matcher: try to match at the head of the suffix, returning
capture group 1. -/
def Pat : Type := List Char → Option (List Char)

/-- `剩[：:]\s*([0-9,]+)` anchored at a position. -/
def matchRemainColonAt : Pat
  | c1 :: c2 :: rest =>
    if c1 == '剩' && (c2 == '：' || c2 == ':') then
      let g := (rest.dropWhile isPySpace).takeWhile isDigitComma
      if g.isEmpty then none else some g
    else none
  | _ => none

/-- `餘[：:]\s*([0-9,]+)` anchored at a position. -/
def matchYuColonAt : Pat
  | c1 :: c2 :: rest =>
    if c1 == '餘' && (c2 == '：' || c2 == ':') then
      let g := (rest.dropWhile isPySpace).takeWhile isDigitComma
      if g.isEmpty then none else some g
    else none
  | _ => none

/-- `還剩\s*([0-9,]+)` anchored at a position. -/
def matchHaiShengAt : Pat
  | c1 :: c2 :: rest =>
    if c1 == '還' && c2 == '剩' then
      let g := (rest.dropWhile isPySpace).takeWhile isDigitComma
      if g.isEmpty then none else some g
    else none
  | _ => none

/-- `([0-9,]+)\s*張?剩` anchored at a position. -/
def matchNumShengAt : Pat := fun s =>
  let g := s.takeWhile isDigitComma
  if g.isEmpty then none
  else
    match (s.dropWhile isDigitComma).dropWhile isPySpace with
    | '張' :: rest2 =>
      match rest2 with
      | '剩' :: _ => some g
      | _ => none
    | '剩' :: _ => some g
    | _ => none

/-- `([0-9,]+)` anchored at a position. -/
def matchBareNumAt : Pat := fun s =>
  let g := s.takeWhile isDigitComma
  if g.isEmpty then none else some g

/-- `re.search`: try the anchored matcher at each position, leftmost first. -/
def search (m : Pat) : List Char → Option (List Char)
  | [] => none
  | c :: rest =>
    match m (c :: rest) with
    | some g => some g
    | none => search m rest

/-- The ordered pattern list of `_extract_remaining_count`
(scraper.py:367-373). -/
def patterns : List Pat :=
  [matchRemainColonAt, matchYuColonAt, matchHaiShengAt, matchNumShengAt,
   matchBareNumAt]

/-- The `for pat in patterns: ... if m: return m.group(1)` loop. -/
def firstMatch : List Pat → List Char → Option (List Char)
  | [], _ => none
  | p :: ps, s =>
    match search p s with
    | some g => some g
    | none => firstMatch ps s

/-- `TicketScraper._extract_remaining_count` (scraper.py:361-378). -/
def extract_remaining_count (text : List Char) : Option (List Char) :=
  if text.isEmpty then none
  else firstMatch patterns (normalize_digits text)

/-- A matcher that never matches (used as the out-of-range default for
indexing into `patterns`). -/
def failPat : Pat := fun _ => none

/-! ### Row parsing (`_parse_single_row`, `_parse_ticket_info`) -/

/-- One ticket-availability record, the dict built at scraper.py:348-354
(`scraped_at` is wall-clock time and is not modelled). -/
structure SessionEntry where
  label : Option (List Char)
  remaining : Option (List Char)
  raw_remaining_text : List Char
  date : List Char
  description : List Char
deriving DecidableEq, Repr

/-- The observable content of one session-row DOM container: for each of the
three sub-elements (`.date .mr-2`, `.date .description`,
`.priceplans_wrapper .remain_infos > span`), either its inner text
(`some t`), or `none` when the locator finds no element or reading it
raises — both cases leave the corresponding `*_txt` variable at `""` in the
source (scraper.py:315-339). -/
structure RawRow where
  date_el : Option (List Char)
  desc_el : Option (List Char)
  remain_el : Option (List Char)
deriving DecidableEq, Repr

/-- `TicketScraper._parse_single_row` (scraper.py:312-358).  Every fallible
read inside the function body is guarded by its own `try/except`, so the
outer `except` (which would return `None`) is unreachable for any readable
row; the result is always `some` entry. -/
def parse_single_row (row : RawRow) : Option SessionEntry :=
  let date_txt := match row.date_el with | some t => strip t | none => []
  let desc_txt := match row.desc_el with | some t => strip t | none => []
  let remain_txt := match row.remain_el with | some t => strip t | none => []
  let remaining := extract_remaining_count remain_txt
  let label :=
    if truthy date_txt || truthy desc_txt then
      some (strip (date_txt ++ ' ' :: desc_txt))
    else none
  some { label := label, remaining := remaining,
         raw_remaining_text := remain_txt, date := date_txt,
         description := desc_txt }

/-- The outcome of reading one row container in the loop of
`_parse_ticket_info` (scraper.py:299-307): either the row's content, or an
exception while accessing the container itself (caught and logged, the row
is skipped). -/
inductive RowRead where
  | ok (r : RawRow)
  | readError
deriving DecidableEq, Repr

/-- Whether the row container could be read. -/
def RowRead.isOk : RowRead → Bool
  | .ok _ => true
  | .readError => false

/-- `TicketScraper._parse_ticket_info` (scraper.py:293-309): parse each row
independently, skipping rows whose container read raised. -/
def parse_ticket_info (rows : List RowRead) : List SessionEntry :=
  rows.filterMap fun rr =>
    match rr with
    | .ok r => parse_single_row r
    | .readError => none

/-! ### `_wait_for_content` (page readiness detector) -/

/-- Outcome of one wait stage: the wait completed, or it hit its timeout
(`playwright TimeoutError`, the only exception the source catches). -/
inductive StageOutcome where
  | success
  | timeout
deriving DecidableEq, BEq, Repr

/-- Observable actions of `_wait_for_content`.  `graceSleep` is included so
that its absence from every trace can be stated; the source never emits
it. -/
inductive WEvent where
  | primaryWait
  | networkWait
  | warnTimeout
  | graceSleep
deriving DecidableEq, BEq, Repr

/-- `TicketScraper._wait_for_content` (scraper.py:226-242): wait for
`.events__list__table`; on timeout wait for `networkidle`; on a second
timeout log a warning and return.  Total on every stage outcome: a timeout
never propagates. -/
def wait_for_content (primary network : StageOutcome) : List WEvent :=
  match primary with
  | .success => [.primaryWait]
  | .timeout =>
    match network with
    | .success => [.primaryWait, .networkWait]
    | .timeout => [.primaryWait, .networkWait, .warnTimeout]

/-! ### `_cleanup` (session teardown) -/

/-- Observable actions of `_cleanup`: an attempted context close, an
attempted browser close, and the logging of a caught teardown error. -/
inductive CEvent where
  | closeContext
  | closeBrowser
  | logError
deriving DecidableEq, BEq, Repr

/-- `TicketScraper._cleanup` (scraper.py:114-122).  The single `try` block
covers both closes: `if self.context: await self.context.close()` then
`if self.browser: await self.browser.close()`, with one `except` that logs.
Arguments: whether `self.context` / `self.browser` are set, and whether the
respective `close()` call raises.  Total: the caught error never
propagates. -/
def cleanup (hasContext hasBrowser ctxCloseFails browserCloseFails : Bool) :
    List CEvent :=
  if hasContext then
    if ctxCloseFails then [.closeContext, .logError]
    else if hasBrowser then
      if browserCloseFails then [.closeContext, .closeBrowser, .logError]
      else [.closeContext, .closeBrowser]
    else [.closeContext]
  else
    if hasBrowser then
      if browserCloseFails then [.closeBrowser, .logError]
      else [.closeBrowser]
    else []

/-! ### Configuration and the retry loop -/

/-- `ScrapingConfig` (scraper.py:33-46).  `retry_delay` is a Python float
whose uses here (multiplication by powers of two) are exact, so it is
modelled as a rational. -/
structure ScrapingConfig where
  max_retries : Nat := 3
  retry_delay : ℚ := 2
  page_timeout : Nat := 90000
  wait_timeout : Nat := 45000
  network_timeout : Nat := 15000
  concurrency : Nat := 3
deriving DecidableEq, Repr

/-- Observable actions of `_retry_fetch`: an attempt with its zero-based
index, and a backoff sleep with its duration in seconds. -/
inductive REvent where
  | attempt (i : Nat)
  | sleep (d : ℚ)
deriving DecidableEq, Repr

/-- `TicketScraper._retry_fetch` (scraper.py:168-183), as a trace-producing
loop.  `i` is the current zero-based attempt index, `k` the number of loop
iterations still allowed (`max_retries - i`).  `fetch i` is the outcome of
`_fetch_single_page` on attempt `i`: a returned value or a raised exception.
A sleep of `retry_delay * 2 ^ i` happens after a failed attempt only when
another attempt remains (`attempt + 1 < max_retries`); after the last failed
attempt the saved exception is re-raised.  The second result component is
`none` only when the loop body never ran (`max_retries = 0`), where the
source hits `assert last_exc is not None`. -/
def retry_loop {E R : Type} (cfg : ScrapingConfig) (fetch : Nat → Except E R) :
    Nat → Nat → List REvent × Option (Except E R)
  | _, 0 => ([], none)
  | i, k + 1 =>
    match fetch i with
    | Except.ok r => ([REvent.attempt i], some (Except.ok r))
    | Except.error e =>
      if k = 0 then ([REvent.attempt i], some (Except.error e))
      else
        (REvent.attempt i :: REvent.sleep (cfg.retry_delay * 2 ^ i) ::
           (retry_loop cfg fetch (i + 1) k).1,
         (retry_loop cfg fetch (i + 1) k).2)

/-- The canonical shape of a backoff trace that starts at attempt index
`start` and makes `m` attempts: consecutive attempt indices, with exactly
one sleep of `retry_delay * 2 ^ j` between attempt `j` and attempt
`j + 1`. -/
def backoff_trace (cfg : ScrapingConfig) : Nat → Nat → List REvent
  | _, 0 => []
  | start, 1 => [REvent.attempt start]
  | start, m + 2 =>
    REvent.attempt start :: REvent.sleep (cfg.retry_delay * 2 ^ start) ::
      backoff_trace cfg (start + 1) (m + 1)

/-! ### Page fetching and batch orchestration -/

/-- What a successfully interacted-with page yields: the extracted title and
the parsed session entries (scraper.py:202-203). -/
structure PageData where
  title : Option (List Char)
  entries : List SessionEntry
deriving DecidableEq, Repr

/-- The dict returned by `_fetch_single_page` (scraper.py:205-221).
`scraped_at` (wall-clock) is not modelled. -/
structure PageResult where
  url : List Char
  title : Option (List Char)
  entries : List SessionEntry
  error : Option (List Char)
  success : Bool
deriving DecidableEq, Repr

/-- How one attempt at `_fetch_single_page` can go:
* `ok d` — every step inside the `try` block succeeds and the page yields `d`;
* `pageError msg` — some step inside the `try` block raises (navigation
  timeout, parse error, ...); the source catches it and *returns* a failure
  dict (scraper.py:213-221);
* `sessionError msg` — an exception outside the `try` block
  (`context.new_page()` at scraper.py:188 or the close in `finally`)
  propagates to the caller.
The message strings stand for Python's `f"⁅type⁆: ⁅e⁆"` rendering used by
the worker (scraper.py:149). -/
inductive AttemptOutcome where
  | ok (d : PageData)
  | pageError (msg : List Char)
  | sessionError (msg : List Char)
deriving DecidableEq, Repr

/-- `TicketScraper._fetch_single_page` (scraper.py:186-223) for one given
attempt outcome: a returned `PageResult` or a propagated exception. -/
def fetch_single_page (url : List Char) (o : AttemptOutcome) :
    Except (List Char) PageResult :=
  match o with
  | .ok d =>
    .ok { url := url, title := d.title, entries := d.entries, error := none,
          success := true }
  | .pageError m =>
    .ok { url := url, title := none, entries := [], error := some m,
          success := false }
  | .sessionError m => .error m

/-- The environment's choice of attempt outcome, per target URL and
zero-based attempt index. -/
def Env : Type := List Char → Nat → AttemptOutcome

/-- The value `await self._retry_fetch(url)` produces inside a worker:
`some (ok r)` — a returned dict; `some (error e)` — the re-raised last
exception; `none` — the degenerate `max_retries = 0` assertion case. -/
def worker_outcome (cfg : ScrapingConfig) (env : Env) (url : List Char) :
    Option (Except (List Char) PageResult) :=
  (retry_loop cfg (fun i => fetch_single_page url (env url i)) 0
    cfg.max_retries).2

/-- An element of the `errors` list.  `scrape_multiple`'s empty-input branch
(scraper.py:136) puts a bare string in the list; every other error is a
`{"url": ..., "error": ...}` dict. -/
inductive ErrorItem where
  | record (url : List Char) (error : List Char)
  | raw (msg : List Char)
deriving DecidableEq, Repr

/-- The `summary` dict (scraper.py:160-164). -/
structure Summary where
  total : Nat
  success : Nat
  failed : Nat
deriving DecidableEq, Repr

/-- The aggregate returned by `scrape_multiple` / `run_once`.  `summary` is
an `Option` because the empty-input branch returns a dict with no
`"summary"` key at all. -/
structure BatchResult where
  results : List PageResult
  errors : List ErrorItem
  summary : Option Summary
deriving DecidableEq, Repr

/-- The workers of `scrape_multiple` (scraper.py:143-155): each worked
target appends its fetched dict to `results` or an
`{"url": ..., "error": ...}` record to `errors`.  Completion order is
modelled as target order (the claims checked here depend only on list
membership and lengths, which every interleaving preserves).  In the
`max_retries = 0` case the worker's `except Exception` catches the
`AssertionError` from `_retry_fetch`. -/
def run_workers (cfg : ScrapingConfig) (env : Env) :
    List (List Char) → List PageResult × List ErrorItem
  | [] => ([], [])
  | url :: rest =>
    let tail := run_workers cfg env rest
    match worker_outcome cfg env url with
    | some (Except.ok r) => (r :: tail.1, tail.2)
    | some (Except.error e) => (tail.1, ErrorItem.record url e :: tail.2)
    | none =>
      (tail.1, ErrorItem.record url ("AssertionError: ".data) :: tail.2)

/-- `TicketScraper.scrape_multiple` (scraper.py:125-165).  An empty target
list short-circuits to `{"results": [], "errors": ["no url provided"]}`
with no summary; otherwise workers are spawned for the trimmed non-blank
targets (`[worker(u.strip()) for u in targets if u and u.strip()]`) and the
summary counts the *raw* input length against the lengths of the two
accumulated lists. -/
def scrape_multiple (cfg : ScrapingConfig) (env : Env)
    (targets : List (List Char)) : BatchResult :=
  if targets.isEmpty then
    { results := [], errors := [ErrorItem.raw ("no url provided".data)],
      summary := none }
  else
    let work :=
      (targets.filter fun u => truthy u && truthy (strip u)).map strip
    let wr := run_workers cfg env work
    { results := wr.1, errors := wr.2,
      summary := some { total := targets.length, success := wr.1.length,
                        failed := wr.2.length } }

/-! ### `_is_valid_opentix_url` and `run_once` -/

/-- `urllib.parse.urlparse(u).netloc` for a `u` that starts with
`http://` or `https://` (the only case reached in the source, thanks to the
`startswith` guard): the text between the `//` and the next `/`, `?` or
`#`. -/
def netlocOf (u : List Char) : List Char :=
  let rest :=
    if startswith ("https://".data) u then u.drop 8 else u.drop 7
  rest.takeWhile fun c => !(c == '/' || c == '?' || c == '#')

/-- `urllib.parse.urlparse(u).path` under the same guard: from the first
`/` after the netloc up to the first `?` or `#`.  (urlparse's splitting of
`;parameters` off the last path segment can only remove characters after
the final `/`, so it cannot change whether the path contains `"/event/"`;
it is omitted.) -/
def pathOf (u : List Char) : List Char :=
  let rest :=
    if startswith ("https://".data) u then u.drop 8 else u.drop 7
  (rest.dropWhile fun c => !(c == '/' || c == '?' || c == '#')).takeWhile
    fun c => !(c == '?' || c == '#')

/-- `_is_valid_opentix_url` (scraper.py:388-396).  `urlparse` does not raise
on `str` input, so the `except` branch is dead. -/
def is_valid_opentix_url (u : List Char) : Bool :=
  if !truthy u then false
  else if !(startswith ("http://".data) u || startswith ("https://".data) u)
  then false
  else
    (netlocOf u == ("opentix.life".data) ||
     netlocOf u == ("www.opentix.life".data)) &&
    containsSub ("/event/".data) (pathOf u)

/-- `run_once` (scraper.py:399-432) in its `urls=` (comma-separated) form:
split, trim, drop blanks; short-circuit when nothing remains; partition by
URL validity; scrape only the valid ones with a default-config scraper;
then append an `{"url": bad, "error": "Invalid OpenTix URL format"}` record
per invalid target to `errors` — without touching `summary`. -/
def run_once_urls (env : Env) (urls : List Char) : BatchResult :=
  let targets :=
    ((split_commas urls).filter fun u => truthy u && truthy (strip u)).map
      strip
  if targets.isEmpty then
    { results := [], errors := [ErrorItem.raw ("no url provided".data)],
      summary := none }
  else
    let valid := targets.filter fun t => is_valid_opentix_url t
    let invalid := targets.filter fun t => !is_valid_opentix_url t
    let result := scrape_multiple {} env valid
    { result with
        errors := result.errors ++
          invalid.map fun b =>
            ErrorItem.record b ("Invalid OpenTix URL format".data) }

/-! ### Concrete scenarios used by the claims -/

/-- Valid event URL `A` of the end-to-end scenario. -/
def urlA : List Char := "https://www.opentix.life/event/A".data

/-- Valid event URL `B` of the end-to-end scenario. -/
def urlB : List Char := "https://www.opentix.life/event/B".data

/-- The message of a navigation timeout as the worker would render it. -/
def timeoutMsg : List Char := "TimeoutError: Timeout 90000ms exceeded".data

/-- An environment in which every attempt at every target raises inside the
`try` block of `_fetch_single_page` (e.g. `page.goto` times out),
deterministically. -/
def envAllPageError : Env := fun _ _ => AttemptOutcome.pageError timeoutMsg

/-- The two entries page `A` yields in the end-to-end scenario. -/
def entryA1 : SessionEntry :=
  { label := some ("7/1".data), remaining := some ("12".data),
    raw_remaining_text := "剩：12".data, date := "7/1".data,
    description := [] }

/-- Second entry of page `A`. -/
def entryA2 : SessionEntry :=
  { label := some ("7/2".data), remaining := none,
    raw_remaining_text := [], date := "7/2".data, description := [] }

/-- Environment for the end-to-end scenario: `A` succeeds with two entries,
every attempt at any other URL (in particular `B`) times out inside
`page.goto`. -/
def envC2 : Env := fun url _ =>
  if url = urlA then
    AttemptOutcome.ok { title := some ("Concert A".data),
                        entries := [entryA1, entryA2] }
  else AttemptOutcome.pageError timeoutMsg

/-- The batch input string of the end-to-end scenario. -/
def inputC2 : List Char :=
  "https://www.opentix.life/event/A,not-a-url,https://www.opentix.life/event/B".data

/-- An environment that is never consulted (all targets invalid). -/
def envUnused : Env := fun _ _ => AttemptOutcome.sessionError ("unused".data)

/-- An environment for the blank-target instance. -/
def envBlank : Env := fun _ _ => AttemptOutcome.pageError []

/-- A concrete row with a date but no remaining-count sub-element. -/
def rowNoRemain : RawRow :=
  { date_el := some ("7/1".data), desc_el := none, remain_el := none }

/-- The entry `rowNoRemain` parses to. -/
def entryNoRemain : SessionEntry :=
  { label := some ("7/1".data), remaining := none, raw_remaining_text := [],
    date := "7/1".data, description := [] }

/-- The zero-based indices of the attempts recorded in a trace, in order. -/
def attempt_indices : List REvent → List Nat
  | [] => []
  | REvent.attempt i :: rest => i :: attempt_indices rest
  | REvent.sleep _ :: rest => attempt_indices rest

/-! ### Sanity checks on the embedding -/

example : extract_remaining_count ("剩：910".data) = some ("910".data) := by decide
example : extract_remaining_count ("剩：９１０".data) = some ("910".data) := by decide
example : extract_remaining_count ("no digits here".data) = none := by decide
example : extract_remaining_count ("123張剩".data) = some ("123".data) := by decide
example : extract_remaining_count ("還剩 7".data) = some ("7".data) := by decide
example : normalize_digits ("９１０，x".data) = "910,x".data := by decide
example : is_valid_opentix_url ("https://www.opentix.life/event/A".data) = true := by decide
example : is_valid_opentix_url ("not-a-url".data) = false := by decide
example : is_valid_opentix_url ("https://example.com/event/A".data) = false := by decide
example : is_valid_opentix_url ("https://www.opentix.life/about".data) = false := by decide
example : split_commas ("a,,b".data) = [['a'], [], ['b']] := by decide
example : strip ("  x ".data) = ['x'] := by decide

/-- Claim C1.  The claim: for a batch of N valid targets whose every fetch
attempt fails deterministically, the aggregate has `summary.total == N`,
`summary.failed == N`, `summary.success == 0`, and each target's url
appears exactly once among the error records, never as a `PageResult`.
What the code actually does when the failure is raised inside the `try`
block of `_fetch_single_page` (e.g. a navigation timeout): the exception is
caught there and converted into a *returned* dict with `success: False`, so
`_retry_fetch` neither retries nor raises, the worker appends it to
`results`, and the summary reports the failed target as a success.  For
N = 1: `summary == {total: 1, success: 1, failed: 0}`, `errors == []`, and
the failure sits in `results` as a `PageResult` with `success = false`. -/
theorem scrape_multiple_all_fail_counted_as_success :
    (scrape_multiple {} envAllPageError [urlA]).summary =
      some { total := 1, success := 1, failed := 0 } ∧
    (scrape_multiple {} envAllPageError [urlA]).errors = [] ∧
    (scrape_multiple {} envAllPageError [urlA]).results =
      [{ url := urlA, title := none, entries := [],
         error := some timeoutMsg, success := false }] := by
  refine ⟨by decide, by decide, by decide⟩

/-- Claim C2.  The claim: for the batch input
`"https://www.opentix.life/event/A,not-a-url,https://www.opentix.life/event/B"`
where A succeeds with 2 entries and B times out on every retry, `results`
contains exactly A's PageResult, `errors` exactly one entry for the
malformed target and one for B, and `summary == {total: 3, success: 1,
failed: 2}`.  What the code actually returns: B's timeout is swallowed
inside `_fetch_single_page` and lands in `results` as a `success = false`
record, and `run_once` computes the summary over the two *valid* targets
only and never updates it when appending the invalid-URL error, so
`results` has 2 elements (A's and B's), `errors` has exactly 1 (the
malformed target), and `summary == {total: 2, success: 2, failed: 0}`. -/
theorem run_once_end_to_end_eval :
    (run_once_urls envC2 inputC2).summary =
      some { total := 2, success := 2, failed := 0 } ∧
    (run_once_urls envC2 inputC2).errors =
      [ErrorItem.record ("not-a-url".data)
        ("Invalid OpenTix URL format".data)] ∧
    (run_once_urls envC2 inputC2).results =
      [{ url := urlA, title := some ("Concert A".data),
         entries := [entryA1, entryA2], error := none, success := true },
       { url := urlB, title := none, entries := [],
         error := some timeoutMsg, success := false }] := by
  refine ⟨by decide, by decide, by decide⟩

/-- Claim C3.  The claim: a batch of only invalid URLs yields
`results == []`, each input exactly once in `errors` with an invalid-URL
reason, and `summary.success == 0`.  What the code actually returns for the
batch `"not-a-url"`: since the valid set is empty, `scrape_multiple([])`
takes its short-circuit branch, so the aggregate has *no summary at all*
(no `"summary"` key, so no `summary.success`) and `errors` additionally
contains the spurious bare string `"no url provided"` before the invalid-URL
record. -/
theorem run_once_all_invalid_eval :
    (run_once_urls envUnused ("not-a-url".data)).results = [] ∧
    (run_once_urls envUnused ("not-a-url".data)).summary = none ∧
    (run_once_urls envUnused ("not-a-url".data)).errors =
      [ErrorItem.raw ("no url provided".data),
       ErrorItem.record ("not-a-url".data)
         ("Invalid OpenTix URL format".data)] := by
  refine ⟨by decide, by decide, by decide⟩

/-- Claim C8, counterexample.  The claim asserts a third stage: a fixed
grace delay entered when the network-quiescence wait times out.  In the
execution where both the primary selector wait and the network-quiescence
wait time out, the detector's trace contains no grace-delay action: the
source's second `except PWTimeout` only logs a warning and returns
(scraper.py:241-242). -/
theorem wait_for_content_no_grace_delay :
    ((wait_for_content StageOutcome.timeout StageOutcome.timeout).contains
      WEvent.graceSleep) = false := by decide

/-- Claim C8, amended.  The readiness detector has *two* stages, entered in
order — the primary selector wait, then on its timeout the
network-quiescence wait; a second timeout is logged and the detector
proceeds directly to the parse attempt with no grace delay.  Each stage's
timeout is non-fatal: `wait_for_content` is total on stage outcomes, its
trace always starts with the primary wait, contains the network wait
exactly when the primary wait timed out, logs a warning exactly when both
timed out, and never contains a grace-delay action. -/
theorem wait_for_content_spec (p n : StageOutcome) :
    (wait_for_content p n).head? = some WEvent.primaryWait ∧
    ((wait_for_content p n).contains WEvent.networkWait) =
      (p == StageOutcome.timeout) ∧
    ((wait_for_content p n).contains WEvent.warnTimeout) =
      (p == StageOutcome.timeout && n == StageOutcome.timeout) ∧
    ((wait_for_content p n).contains WEvent.graceSleep) = false := by
  cases p <;> cases n <;> exact ⟨rfl, by decide, by decide, by decide⟩

/-- Claim C9, counterexample.  The claim asserts the browser process is
closed in every execution, including when closing the context raises.  In
the execution where both `self.context` and `self.browser` are set and
`context.close()` raises, the single `except` of `_cleanup`
(scraper.py:121) catches the error after the context-close attempt and the
`browser.close()` call is never reached. -/
theorem cleanup_skips_browser_close :
    ((cleanup true true true false).contains CEvent.closeBrowser) = false := by
  decide

/-- Claim C9, amended.  Teardown attempts the context close and then the
browser close, in that order, and an error raised by either close is caught
and logged, never propagated (`cleanup` is total and records `logError` for
every failing close) — but a context-close error makes teardown skip the
browser close: the browser is closed exactly when it exists and no
context-close error occurred.  The filtered-trace equation also fixes the
order: the context close attempt always precedes the browser close. -/
theorem cleanup_spec (hc hb cf bf : Bool) :
    ((cleanup hc hb cf bf).filter fun e =>
        e == CEvent.closeContext || e == CEvent.closeBrowser) =
      ((if hc then [CEvent.closeContext] else []) ++
       (if hb && !(hc && cf) then [CEvent.closeBrowser] else [])) ∧
    ((cleanup hc hb cf bf).contains CEvent.logError) =
      ((hc && cf) || (hb && !(hc && cf) && bf)) := by
  cases hc <;> cases hb <;> cases cf <;> cases bf <;> exact ⟨by decide, by decide⟩

/-! ### Lemmas about `List.lookup` and the digit table -/

/-- A successful association-list lookup exhibits a member pair. -/
theorem lookup_mem {α β : Type} [BEq α] [LawfulBEq α]
    (l : List (α × β)) (a : α) (b : β) (h : l.lookup a = some b) :
    (a, b) ∈ l := by
  induction l with
  | nil => simp [List.lookup] at h
  | cons p es ih =>
    obtain ⟨k, v⟩ := p
    by_cases hk : (a == k) = true
    · have ha := eq_of_beq hk
      simp [List.lookup, hk] at h
      subst ha; subst h
      exact List.mem_cons_self _ _
    · have hk' : (a == k) = false := by simpa using hk
      simp only [List.lookup, hk'] at h
      exact List.mem_cons_of_mem _ (ih h)

/-- Unfolding `normalizeChar` on a mapped character. -/
theorem normalizeChar_of_lookup_some {c d : Char}
    (h : digitTable.lookup c = some d) : normalizeChar c = d := by
  unfold normalizeChar
  rw [h]

/-- Unfolding `normalizeChar` on an unmapped character. -/
theorem normalizeChar_of_lookup_none {c : Char}
    (h : digitTable.lookup c = none) : normalizeChar c = c := by
  unfold normalizeChar
  rw [h]

/-- Every output character of the digit table is itself unmapped. -/
theorem digitTable_snd_unmapped :
    ∀ p ∈ digitTable, digitTable.lookup p.2 = none := by decide

/-- `normalizeChar` is idempotent on characters. -/
theorem normalizeChar_idem (c : Char) :
    normalizeChar (normalizeChar c) = normalizeChar c := by
  cases h : digitTable.lookup c with
  | none =>
    rw [normalizeChar_of_lookup_none h, normalizeChar_of_lookup_none h]
  | some d =>
    rw [normalizeChar_of_lookup_some h]
    have hd : digitTable.lookup d = none :=
      digitTable_snd_unmapped (c, d) (lookup_mem digitTable c d h)
    rw [normalizeChar_of_lookup_none hd]

/-- Claim C5.  `normalizeChar` maps each full-width digit U+FF10–U+FF19 to
the corresponding half-width digit U+0030–U+0039 and the full-width comma
U+FF0C to the half-width comma, passes every character outside that set
through unchanged, and `normalize_digits` is idempotent. -/
theorem normalize_digits_spec :
    (∀ k : Nat, k < 10 →
       normalizeChar (Char.ofNat (0xFF10 + k)) = Char.ofNat (0x30 + k)) ∧
    normalizeChar '，' = ',' ∧
    (∀ c : Char, (c.toNat < 0xFF10 ∨ 0xFF19 < c.toNat) → c.toNat ≠ 0xFF0C →
       normalizeChar c = c) ∧
    (∀ s : List Char,
       normalize_digits (normalize_digits s) = normalize_digits s) := by
  refine ⟨by decide, by decide, ?_, ?_⟩
  · intro c h1 h2
    cases h : digitTable.lookup c with
    | none => exact normalizeChar_of_lookup_none h
    | some d =>
      exfalso
      have hmem := lookup_mem digitTable c d h
      simp [digitTable] at hmem
      rcases hmem with ⟨rfl, -⟩ | ⟨rfl, -⟩ | ⟨rfl, -⟩ | ⟨rfl, -⟩ | ⟨rfl, -⟩ |
        ⟨rfl, -⟩ | ⟨rfl, -⟩ | ⟨rfl, -⟩ | ⟨rfl, -⟩ | ⟨rfl, -⟩ | ⟨rfl, -⟩ <;>
        first
          | exact absurd h1 (by decide)
          | exact h2 (by decide)
  · intro s
    simp [normalize_digits, List.map_map, Function.comp, normalizeChar_idem]

/-- Claim C5 applied: digit 3 of the full-width range maps down, an
unrelated character passes through. -/
theorem normalize_digits_spec_app :
    normalizeChar (Char.ofNat (0xFF10 + 3)) = Char.ofNat (0x30 + 3) ∧
    normalizeChar 'x' = 'x' :=
  ⟨normalize_digits_spec.1 3 (by decide),
   normalize_digits_spec.2.2.1 'x' (by decide) (by decide)⟩

/-! ### Lemmas about pattern search -/

/-- The never-matching pattern finds nothing at any position. -/
theorem search_failPat (s : List Char) : search failPat s = none := by
  induction s with
  | nil => rfl
  | cons c rest ih => simp [search, failPat, ih]

/-- The pattern loop returns `none` exactly when no pattern matches. -/
theorem firstMatch_none_iff (ps : List Pat) (s : List Char) :
    firstMatch ps s = none ↔ ∀ p ∈ ps, search p s = none := by
  induction ps with
  | nil => simp [firstMatch]
  | cons p ps ih =>
    cases h : search p s with
    | some g => simp [firstMatch, h]
    | none => simp [firstMatch, h, ih]

/-- The pattern loop returns the first pattern's match: if pattern `i`
matches and all earlier patterns fail, its group is the result. -/
theorem firstMatch_eq_some (ps : List Pat) (s : List Char) :
    ∀ (i : Nat) (g : List Char),
      search (ps.getD i failPat) s = some g →
      (∀ j, j < i → search (ps.getD j failPat) s = none) →
      firstMatch ps s = some g := by
  induction ps with
  | nil =>
    intro i g h _
    rw [List.getD_nil] at h
    rw [search_failPat] at h
    exact absurd h (by simp)
  | cons p ps ih =>
    intro i g h hprev
    cases i with
    | zero =>
      rw [List.getD_cons_zero] at h
      simp [firstMatch, h]
    | succ i =>
      have h0 : search p s = none := by
        have := hprev 0 (Nat.succ_pos i)
        rwa [List.getD_cons_zero] at this
      rw [List.getD_cons_succ] at h
      simp only [firstMatch, h0]
      exact ih i g h fun j hj => by
        have := hprev (j + 1) (Nat.succ_lt_succ hj)
        rwa [List.getD_cons_succ] at this

/-- Claim C4.  `_extract_remaining_count` applies its five patterns in the
fixed order, returning the first matching pattern's digit group; it returns
`none` exactly when the input is empty or no pattern matches the normalized
text; and on the spec's concrete inputs: `"剩：910" ↦ "910"`,
`"剩：９１０" ↦ "910"` (full-width digits normalized), `"no digits here" ↦
none`. -/
theorem extract_remaining_count_spec :
    extract_remaining_count ("剩：910".data) = some ("910".data) ∧
    extract_remaining_count ("剩：９１０".data) = some ("910".data) ∧
    extract_remaining_count ("no digits here".data) = none ∧
    extract_remaining_count [] = none ∧
    (∀ t : List Char,
       (extract_remaining_count t = none ↔
         t = [] ∨ ∀ p ∈ patterns, search p (normalize_digits t) = none)) ∧
    (∀ (t : List Char) (i : Nat) (g : List Char),
       search (patterns.getD i failPat) (normalize_digits t) = some g →
       (∀ j, j < i →
         search (patterns.getD j failPat) (normalize_digits t) = none) →
       extract_remaining_count t = some g) := by
  refine ⟨by decide, by decide, by decide, by decide, ?_, ?_⟩
  · intro t
    cases t with
    | nil => simp [extract_remaining_count]
    | cons c rest => simp [extract_remaining_count, firstMatch_none_iff]
  · intro t i g h hprev
    cases t with
    | nil =>
      rw [show normalize_digits [] = [] from rfl] at h
      rw [show search (patterns.getD i failPat) [] = none from rfl] at h
      exact absurd h (by simp)
    | cons c rest =>
      simpa [extract_remaining_count] using
        firstMatch_eq_some patterns (normalize_digits (c :: rest)) i g h hprev

/-- Claim C4 applied: the bare-digits fallback (pattern index 4) fires when
the four earlier patterns all fail. -/
theorem extract_remaining_count_spec_app :
    extract_remaining_count ("x5".data) = some ("5".data) :=
  extract_remaining_count_spec.2.2.2.2.2 ("x5".data) 4 ("5".data) (by decide)
    (by decide)

/-! ### The retry loop's trace -/

/-- A backoff trace of `m` attempts starting at `start` visits exactly the
attempt indices `start, start+1, ..., start+m-1`, in order. -/
theorem attempt_indices_backoff (cfg : ScrapingConfig) :
    ∀ m start,
      attempt_indices (backoff_trace cfg start m) = List.range' start m := by
  intro m
  induction m using Nat.strong_induction_on with
  | _ m ih =>
    intro start
    match m with
    | 0 => rfl
    | 1 => rfl
    | m + 2 =>
      simp [backoff_trace, attempt_indices, ih (m + 1) (by omega),
        List.range']

/-- Every run of the retry loop from index `i` with `k` iterations allowed
produces a canonical backoff trace of some length `m ≤ k` (and at least one
attempt whenever at least one iteration is allowed). -/
theorem retry_loop_backoff {E R : Type} (cfg : ScrapingConfig)
    (fetch : Nat → Except E R) :
    ∀ k i, ∃ m, m ≤ k ∧ (k ≠ 0 → 1 ≤ m) ∧
      (retry_loop cfg fetch i k).1 = backoff_trace cfg i m := by
  intro k
  induction k with
  | zero => exact fun i => ⟨0, le_rfl, fun h => absurd rfl h, rfl⟩
  | succ k ih =>
    intro i
    cases hf : fetch i with
    | ok r =>
      refine ⟨1, by omega, fun _ => le_rfl, ?_⟩
      simp [retry_loop, hf, backoff_trace]
    | error e =>
      cases hk : k with
      | zero =>
        refine ⟨1, by omega, fun _ => le_rfl, ?_⟩
        simp [retry_loop, hf, backoff_trace]
      | succ k' =>
        obtain ⟨m, hm, hm1, htr⟩ := ih (i + 1)
        have h1 : 1 ≤ m := hm1 (by omega)
        refine ⟨m + 1, by omega, fun _ => by omega, ?_⟩
        cases m with
        | zero => omega
        | succ m' =>
          rw [hk] at htr
          have step : (retry_loop cfg fetch i (k' + 1 + 1)).1 =
              REvent.attempt i :: REvent.sleep (cfg.retry_delay * 2 ^ i) ::
                (retry_loop cfg fetch (i + 1) (k' + 1)).1 := by
            simp [retry_loop, hf]
          rw [step, htr]
          rfl

/-- Claim C6.  `_retry_fetch` makes at most `max_retries` attempts; the
attempts are strictly sequential (indices `0, 1, ..., m-1` in order); and
between consecutive attempts there is exactly one backoff sleep of
`retry_delay * 2 ^ j`, where `j` is the index of the attempt that just
failed — this is what the `backoff_trace` shape asserts. -/
theorem retry_backoff_spec {E R : Type} (cfg : ScrapingConfig)
    (fetch : Nat → Except E R) :
    ∃ m, m ≤ cfg.max_retries ∧
      (retry_loop cfg fetch 0 cfg.max_retries).1 = backoff_trace cfg 0 m ∧
      attempt_indices ((retry_loop cfg fetch 0 cfg.max_retries).1) =
        List.range' 0 m := by
  obtain ⟨m, hm, -, htr⟩ :=
    retry_loop_backoff cfg fetch cfg.max_retries 0
  exact ⟨m, hm, htr, by rw [htr, attempt_indices_backoff]⟩

/-! ### Row-parser claims -/

/-- Claim C7.  For every session row whose container can be read, the row
parser emits a `SessionEntry` — in particular a row whose remaining-count
sub-element is missing yields an entry with `remaining = none` and the
(empty) raw remaining text retained rather than being dropped; the label is
the trimmed space-joined concatenation of date and description, or `none`
when both are empty; and at page level the number of emitted entries equals
the number of readable row containers (no readable row is ever dropped). -/
theorem parse_single_row_spec :
    (∀ row : RawRow, (parse_single_row row).isSome = true) ∧
    (∀ (row : RawRow) (e : SessionEntry), row.remain_el = none →
       parse_single_row row = some e →
       e.remaining = none ∧ e.raw_remaining_text = []) ∧
    (∀ (row : RawRow) (e : SessionEntry), parse_single_row row = some e →
       e.label = (if truthy e.date || truthy e.description then
         some (strip (e.date ++ ' ' :: e.description)) else none)) ∧
    (∀ rows : List RowRead,
       (parse_ticket_info rows).length =
         (rows.filter RowRead.isOk).length) := by
  refine ⟨fun row => rfl, ?_, ?_, ?_⟩
  · intro row e h1 h2
    obtain ⟨de, dse, re⟩ := row
    cases re with
    | some t => simp at h1
    | none =>
      injection h2 with h2
      subst h2
      exact ⟨rfl, rfl⟩
  · intro row e h
    injection h with h
    subst h
    rfl
  · intro rows
    induction rows with
    | nil => rfl
    | cons rr rest ih =>
      cases rr with
      | ok r =>
        simp [parse_ticket_info, parse_single_row, RowRead.isOk,
          List.filter_cons] at ih ⊢
        omega
      | readError =>
        simp [parse_ticket_info, RowRead.isOk, List.filter_cons] at ih ⊢
        omega

/-- Claim C7 applied: the row with a missing remaining-count sub-element is
emitted with `remaining = none` and empty raw text. -/
theorem parse_single_row_spec_app :
    (parse_single_row rowNoRemain).isSome = true ∧
    (entryNoRemain.remaining = none ∧
     entryNoRemain.raw_remaining_text = []) :=
  ⟨parse_single_row_spec.1 rowNoRemain,
   parse_single_row_spec.2.1 rowNoRemain entryNoRemain rfl (by decide)⟩

/-! ### Batch summary invariant -/

/-- Each worked target contributes exactly one element, to `results` or to
`errors`. -/
theorem run_workers_length (cfg : ScrapingConfig) (env : Env)
    (work : List (List Char)) :
    (run_workers cfg env work).1.length +
      (run_workers cfg env work).2.length = work.length := by
  induction work with
  | nil => rfl
  | cons u rest ih =>
    cases h : worker_outcome cfg env u with
    | none =>
      simp [run_workers, h]
      omega
    | some r =>
      cases r with
      | ok v =>
        simp [run_workers, h]
        omega
      | error e =>
        simp [run_workers, h]
        omega

/-- Claim C10.  For every non-empty target list, the aggregate satisfies
`summary.success = |results|`, `summary.failed = |errors|`,
`summary.total = |input|`, and each target that is non-blank after trimming
contributes to exactly one of the two lists (blank targets are counted in
`total` but in neither list). -/
theorem scrape_multiple_summary_invariant (cfg : ScrapingConfig) (env : Env)
    (targets : List (List Char)) (h : targets ≠ []) :
    (scrape_multiple cfg env targets).summary =
      some { total := targets.length,
             success := (scrape_multiple cfg env targets).results.length,
             failed := (scrape_multiple cfg env targets).errors.length } ∧
    (scrape_multiple cfg env targets).results.length +
        (scrape_multiple cfg env targets).errors.length =
      (targets.filter fun u => truthy u && truthy (strip u)).length := by
  have hne : targets.isEmpty = false := by
    cases targets with
    | nil => exact absurd rfl h
    | cons a l => rfl
  constructor
  · simp [scrape_multiple, hne]
  · simp [scrape_multiple, hne, run_workers_length, List.length_map]

/-- Claim C10 applied: a batch holding a single whitespace-only target has
`summary = {total: 1, success: 0, failed: 0}` with both lists empty. -/
theorem scrape_multiple_summary_invariant_app :
    (scrape_multiple {} envBlank [" ".data]).summary =
      some { total := [" ".data].length,
             success := (scrape_multiple {} envBlank [" ".data]).results.length,
             failed := (scrape_multiple {} envBlank [" ".data]).errors.length } ∧
    (scrape_multiple {} envBlank [" ".data]).results.length +
        (scrape_multiple {} envBlank [" ".data]).errors.length =
      (([" ".data] : List (List Char)).filter fun u =>
        truthy u && truthy (strip u)).length :=
  scrape_multiple_summary_invariant {} envBlank [" ".data] (by decide)

end Opentix
